import Mathlib

-- Formal model of the invoice-qc-service backend (src/backend), shallowly
-- embedded in Lean 4: the validator (validator.py), the dual-source merge
-- engine (extraction_merger.py), the verification-status aggregation
-- (google_verifier.py) and the amount normalizers (pdf_extractor.py,
-- document_ai_extractor.py).  Python floats are modelled as exact rationals
-- and Python ints as Int/Nat; fallible steps return Option.

namespace InvoiceQC

-- ===== Data model (models.py) =====

/-- Mirrors `models.LineItem`: description plus optional quantity, price and
line total (`Optional[float]` fields modelled as `Option ℚ`). -/
structure LineItem where
  description : String
  quantity : Option ℚ := none
  price : Option ℚ := none
  total : Option ℚ := none
deriving DecidableEq

/-- Mirrors `models.InvoiceSchema`: all fields optional, `line_items`
defaulting to the empty list (pydantic default `[]`). -/
structure InvoiceSchema where
  invoice_number : Option String := none
  vendor_name : Option String := none
  buyer_name : Option String := none
  vendor_address : Option String := none
  buyer_address : Option String := none
  invoice_date : Option String := none
  due_date : Option String := none
  currency : Option String := none
  subtotal : Option ℚ := none
  tax_amount : Option ℚ := none
  total_amount : Option ℚ := none
  payment_terms : Option String := none
  line_items : List LineItem := []
deriving DecidableEq

-- ===== Python semantics helpers =====

/-- Python truthiness of an optional string: `None` and `""` are falsy. -/
def truthyS : Option String → Bool
  | none => false
  | some s => !(s == "")

/-- Python truthiness of an optional number: `None` and `0` are falsy. -/
def truthyQ : Option ℚ → Bool
  | none => false
  | some q => !(q == 0)

/-- Python `str.lower` restricted to the ASCII mapping of `Char.toLower`
(the repository's field values are ASCII). -/
def lowerStr (s : String) : String := ⟨s.data.map Char.toLower⟩

-- ===== Validator (validator.py, class InvoiceValidator) =====

/-- Structured counterpart of the validator's error/warning message strings:
one constructor per `append` site in `validator.py`, carrying the data the
source interpolates into the f-string. -/
inductive VMsg where
  | missingRequired (label : String)
  | missingImportant (label : String)
  | invoiceNumberTooShort
  | invalidInvoiceDate (s : String)
  | invalidDueDate (s : String)
  | negativeTotal
  | zeroTotal
  | uncommonCurrency (c : String)
  | dueBeforeInvoice
  | longPaymentTerm (days : Int)
  | amountMismatch (sub tax tot : ℚ)
  | lineItemsTotalMismatch (litot sub : ℚ)
  | unusuallyHighAmount (amt : ℚ)
  | suspiciouslyHighAmount (amt : ℚ)
  | vendorBuyerIdentical
  | invoiceDateInFuture (daysOld : Int)
  | invoiceOld (daysOld : Int)
deriving DecidableEq

/-- The validator's mutable accumulators (`self.errors`, `self.warnings`,
`self.score`), threaded explicitly through the four passes. -/
structure VState where
  errors : List VMsg
  warnings : List VMsg
  score : Int

def addError (s : VState) (m : VMsg) (penalty : Int) : VState :=
  { s with errors := s.errors ++ [m], score := s.score - penalty }

def addWarning (s : VState) (m : VMsg) (penalty : Int) : VState :=
  { s with warnings := s.warnings ++ [m], score := s.score - penalty }

/-- Environment for the external date library: `parse` models
`dateutil.parser.parse` as an ordinal day count (`none` = the parse raised,
which the source catches), `today` models `datetime.now()`. -/
structure DateEnv where
  parse : String → Option Int
  today : Int

/-- A date environment in which no date string parses; the claims below are
evaluated on records without dates, so the environment is never consulted. -/
def noDateEnv : DateEnv := ⟨fun _ => none, 0⟩

/-- Embeds `InvoiceValidator._validate_completeness`: required fields missing
(by Python truthiness) append an error and deduct 15 each; important fields
missing append a warning and deduct 5 each, in the source's dict order. -/
def validate_completeness (inv : InvoiceSchema) (s0 : VState) : VState :=
  let s1 := if truthyS inv.invoice_number then s0 else
    addError s0 (.missingRequired "Invoice Number") 15
  let s2 := if truthyS inv.vendor_name then s1 else
    addError s1 (.missingRequired "Vendor Name") 15
  let s3 := if truthyQ inv.total_amount then s2 else
    addError s2 (.missingRequired "Total Amount") 15
  let s4 := if truthyS inv.invoice_date then s3 else
    addError s3 (.missingRequired "Invoice Date") 15
  let s5 := if truthyS inv.buyer_name then s4 else
    addWarning s4 (.missingImportant "Buyer Name") 5
  let s6 := if truthyS inv.currency then s5 else
    addWarning s5 (.missingImportant "Currency") 5
  if truthyS inv.due_date then s6 else
    addWarning s6 (.missingImportant "Due Date") 5

def validCurrencies : List String := ["USD", "EUR", "GBP", "INR", "CAD", "AUD", "JPY"]

/-- Embeds `InvoiceValidator._validate_formats`: short invoice number,
unparsable dates, negative total (error) and zero total (warning, the
`total_amount is not None` guard), uncommon currency. -/
def validate_formats (env : DateEnv) (inv : InvoiceSchema) (s0 : VState) : VState :=
  let s1 :=
    if truthyS inv.invoice_number then
      if (inv.invoice_number.getD "").length < 3 then
        addError s0 .invoiceNumberTooShort 10
      else s0
    else s0
  let s2 :=
    if truthyS inv.invoice_date then
      match env.parse (inv.invoice_date.getD "") with
      | some _ => s1
      | none => addError s1 (.invalidInvoiceDate (inv.invoice_date.getD "")) 10
    else s1
  let s3 :=
    if truthyS inv.due_date then
      match env.parse (inv.due_date.getD "") with
      | some _ => s2
      | none => addError s2 (.invalidDueDate (inv.due_date.getD "")) 10
    else s2
  let s5 :=
    match inv.total_amount with
    | some t =>
      let s4 := if t < 0 then addError s3 .negativeTotal 15 else s3
      if t = 0 then addWarning s4 .zeroTotal 5 else s4
    | none => s3
  match inv.currency with
  | some c =>
    if c ≠ "" then
      if validCurrencies.contains c then s5
      else addWarning s5 (.uncommonCurrency c) 3
    else s5
  | none => s5

/-- Embeds `InvoiceValidator._validate_business_logic`: date-order and
payment-term checks (skipped whole when either date fails to parse, matching
the source's try/except), subtotal+tax vs total, and line-item sum vs
subtotal. -/
def validate_business_logic (env : DateEnv) (inv : InvoiceSchema) (s0 : VState) : VState :=
  let s2 :=
    if truthyS inv.invoice_date && truthyS inv.due_date then
      match env.parse (inv.invoice_date.getD ""), env.parse (inv.due_date.getD "") with
      | some i, some d =>
        let s1 := if d < i then addError s0 .dueBeforeInvoice 15 else s0
        let days := d - i
        if days > 365 then addWarning s1 (.longPaymentTerm days) 5 else s1
      | _, _ => s0
    else s0
  let s3 :=
    if truthyQ inv.subtotal && truthyQ inv.tax_amount && truthyQ inv.total_amount then
      let sub := inv.subtotal.getD 0
      let tax := inv.tax_amount.getD 0
      let tot := inv.total_amount.getD 0
      if |sub + tax - tot| > 1/100 then
        addError s2 (.amountMismatch sub tax tot) 20
      else s2
    else s2
  if inv.line_items.isEmpty then s3
  else
    let litot : ℚ := ((inv.line_items.filter (fun it => truthyQ it.total)).map
      (fun it => it.total.getD 0)).sum
    if truthyQ inv.subtotal && decide ((0:ℚ) < litot) then
      if |litot - inv.subtotal.getD 0| > 1/100 then
        addWarning s3 (.lineItemsTotalMismatch litot (inv.subtotal.getD 0)) 5
      else s3
    else s3

/-- Embeds `InvoiceValidator._validate_anomalies`.  Note the source's
`elif`: a total above 10,000,000 is also above 1,000,000, so only the
warning branch can ever run and the suspicious-amount error branch is
unreachable. -/
def validate_anomalies (env : DateEnv) (inv : InvoiceSchema) (s0 : VState) : VState :=
  let s1 :=
    if truthyQ inv.total_amount then
      let t := inv.total_amount.getD 0
      if t > 1000000 then addWarning s0 (.unusuallyHighAmount t) 3
      else if t > 10000000 then addError s0 (.suspiciouslyHighAmount t) 10
      else s0
    else s0
  let s2 :=
    if truthyS inv.vendor_name && truthyS inv.buyer_name then
      if lowerStr (inv.vendor_name.getD "") == lowerStr (inv.buyer_name.getD "") then
        addWarning s1 .vendorBuyerIdentical 5
      else s1
    else s1
  if truthyS inv.invoice_date then
    match env.parse (inv.invoice_date.getD "") with
    | some i =>
      let daysOld := env.today - i
      if daysOld < -30 then addWarning s2 (.invoiceDateInFuture daysOld) 5
      else if daysOld > 730 then addWarning s2 (.invoiceOld daysOld) 3
      else s2
    | none => s2
  else s2

/-- Mirrors `models.ValidationResult` (the fields the validator populates). -/
structure ValidationResult where
  invoice_number : Option String
  is_valid : Bool
  score : Int
  errors : List VMsg
  warnings : List VMsg

/-- The four passes run in sequence on fresh accumulators, as in
`InvoiceValidator.validate` before the result is assembled. -/
def validateRun (env : DateEnv) (inv : InvoiceSchema) : VState :=
  validate_anomalies env inv
    (validate_business_logic env inv
      (validate_formats env inv
        (validate_completeness inv ⟨[], [], 100⟩)))

/-- Embeds `InvoiceValidator.validate`: validity is `len(errors) == 0` and
the score floor `max(0, self.score)` is applied once, at output time. -/
def validate (env : DateEnv) (inv : InvoiceSchema) : ValidationResult :=
  let st := validateRun env inv
  { invoice_number := inv.invoice_number
    is_valid := st.errors.isEmpty
    score := max 0 st.score
    errors := st.errors
    warnings := st.warnings }

-- ===== Merge engine (extraction_merger.py, class ExtractionMerger) =====

/-- Runtime value of an extracted field as passed around the merger
(`Any` in the source): absent, string, number, or line-item list. -/
inductive PyVal where
  | none
  | str (s : String)
  | num (q : ℚ)
  | items (l : List LineItem)
deriving DecidableEq

/-- Structured counterpart of the merger's `selection_reason` f-strings,
one constructor per assignment site, carrying the interpolated data. -/
inductive SelReason where
  | bothMissing
  | googleUnavailableUsingPdf
  | pdfUnavailableUsingGoogle
  | typeMismatchPreferGoogle
  | googlePreferredNumeric (google pdf diffPercent : ℚ)
  | similarValues (sim : ℚ)
  | differentValues (sim : ℚ)
  | googleMoreItems (google pdf : Nat)
  | sameCountPreferGoogle (n : Nat)
  | pdfMoreItemsStillGoogle (google pdf : Nat)
deriving DecidableEq

/-- Structured counterpart of the merger's `recommendation` strings. -/
inductive Reco where
  | manualReview
  | valuesDiffer
  | itemCountMismatch
deriving DecidableEq

/-- Mirrors `extraction_merger.FieldComparison`. -/
structure FieldComparison where
  field_name : String
  pdf_value : PyVal
  google_value : PyVal
  selected_value : PyVal
  selection_reason : SelReason
  confidence_score : ℚ
  is_mismatch : Bool
  recommendation : Option Reco
deriving DecidableEq

/-- The `self.field_weights` table: per-field (pdf, google) reliability. -/
def field_weights : List (String × ℚ × ℚ) :=
  [("invoice_number", 85/100, 95/100),
   ("vendor_name", 80/100, 90/100),
   ("vendor_address", 75/100, 85/100),
   ("buyer_name", 80/100, 90/100),
   ("buyer_address", 75/100, 85/100),
   ("invoice_date", 85/100, 95/100),
   ("due_date", 80/100, 90/100),
   ("currency", 90/100, 95/100),
   ("subtotal", 85/100, 90/100),
   ("tax_amount", 85/100, 90/100),
   ("total_amount", 90/100, 95/100),
   ("payment_terms", 70/100, 80/100),
   ("line_items", 75/100, 85/100)]

/-- `self.field_weights.get(field_name, {}).get("pdf", default)`. -/
def weightPdf (f : String) (d : ℚ) : ℚ :=
  match field_weights.lookup f with
  | some w => w.1
  | none => d

/-- `self.field_weights.get(field_name, {}).get("google", default)`. -/
def weightGoogle (f : String) (d : ℚ) : ℚ :=
  match field_weights.lookup f with
  | some w => w.2
  | none => d

/-- Python whitespace characters stripped by `str.strip()` (ASCII set). -/
def isWs (c : Char) : Bool :=
  c == ' ' || c == '\t' || c == '\n' || c == '\r' || c == Char.ofNat 11 || c == Char.ofNat 12

/-- Python `str.strip()` on a character list. -/
def stripChars (l : List Char) : List Char :=
  ((l.dropWhile isWs).reverse.dropWhile isWs).reverse

/-- Embeds `ExtractionMerger._has_value`: `None`, blank strings and empty
lists are not meaningful; numbers always are (even 0). -/
def has_value : PyVal → Bool
  | .none => false
  | .str s => !(stripChars s.data).isEmpty
  | .num _ => true
  | .items l => !l.isEmpty

/-- Python `len()` as used by `_compare_line_items` on its two arguments;
in the pipeline those are always lists (a number or `None` here would make
the source raise `TypeError`, a case that cannot be reached because
`line_items` values come from `InvoiceSchema.line_items`). -/
def pyLen : PyVal → Nat
  | .none => 0
  | .str s => s.data.length
  | .num _ => 0
  | .items l => l.length

-- difflib.SequenceMatcher (used by `_calculate_similarity`).  The strings
-- compared are far below the 200-character autojunk cutoff, so no junk is
-- in play and `find_longest_match` returns the longest matching block,
-- ties broken by earliest start in the first string, then in the second —
-- exactly its documented contract, implemented here directly.

/-- Length of the common prefix of two character lists. -/
def commonLen : List Char → List Char → Nat
  | a :: as, b :: bs => if a = b then commonLen as bs + 1 else 0
  | _, _ => 0

/-- One row `i` of `find_longest_match`'s scan: columns `j`, `j+1`, …
(`rem` many), updating the best `(i, j, k)` on strict improvement, exactly
like the source's `if k > bestsize`. -/
def bestRowAux (a b : List Char) (i : Nat) : Nat → Nat → Nat × Nat × Nat → Nat × Nat × Nat
  | _, 0, acc => acc
  | j, rem + 1, acc =>
    bestRowAux a b i (j + 1) rem
      (if commonLen (a.drop i) (b.drop j) > acc.2.2 then
        (i, j, commonLen (a.drop i) (b.drop j))
      else acc)

/-- Rows `i`, `i+1`, … (`rem` many) of the scan, each row sweeping all of
`b`'s positions in order. -/
def bestMatchAux (a b : List Char) : Nat → Nat → Nat × Nat × Nat → Nat × Nat × Nat
  | _, 0, acc => acc
  | i, rem + 1, acc =>
    bestMatchAux a b (i + 1) rem (bestRowAux a b i 0 b.length acc)

/-- `SequenceMatcher.find_longest_match` over whole lists: the `(i, j, k)`
maximizing `k`, ties broken by smallest `i`, then smallest `j` (the scan
runs `i` ascending, `j` ascending, improving only on strictly larger `k`). -/
def bestMatch (a b : List Char) : Nat × Nat × Nat :=
  bestMatchAux a b 0 a.length (0, 0, 0)

/-- Total size of the matching blocks of `SequenceMatcher
.get_matching_blocks`: recursively take the longest match and recurse on
what is left of it on either side (the fuel bounds the recursion depth and
never runs out for `fuel ≥ length a + length b`). -/
def matchTotal : Nat → List Char → List Char → Nat
  | 0, _, _ => 0
  | fuel + 1, a, b =>
    let m := bestMatch a b
    if m.2.2 = 0 then 0
    else m.2.2 + matchTotal fuel (a.take m.1) (b.take m.2.1)
      + matchTotal fuel (a.drop (m.1 + m.2.2)) (b.drop (m.2.1 + m.2.2))

/-- `SequenceMatcher.ratio()`: `2 * M / T` with `M` the total matched size
and `T` the total length (the source never calls it on two empty strings,
which would divide by zero; that case is mapped to 0 here). -/
def ratioVal (a b : List Char) : ℚ :=
  if a.length + b.length = 0 then 0
  else 2 * (matchTotal (a.length + b.length) a b : ℚ) / (a.length + b.length : ℚ)

/-- Embeds `ExtractionMerger._calculate_similarity`: `SequenceMatcher(None,
str1.lower(), str2.lower()).ratio()`. -/
def calculate_similarity (s1 s2 : String) : ℚ :=
  ratioVal (s1.data.map Char.toLower) (s2.data.map Char.toLower)

/-- Embeds `ExtractionMerger._compare_numeric`: percentage difference
relative to the PDF value (with the source's explicit zero-PDF branch),
mismatch above 5%, and the Google value always selected. -/
def compare_numeric (field : String) (pdf_value google_value : ℚ) : FieldComparison :=
  let diff_percent : ℚ :=
    if pdf_value ≠ 0 then |google_value - pdf_value| / |pdf_value| * 100
    else if google_value ≠ 0 then 100 else 0
  { field_name := field
    pdf_value := .num pdf_value
    google_value := .num google_value
    selected_value := .num google_value
    selection_reason := .googlePreferredNumeric google_value pdf_value diff_percent
    confidence_score := weightGoogle field (9/10) * 100
    is_mismatch := decide (diff_percent > 5)
    recommendation := if diff_percent > 5 then some .manualReview else none }

/-- Embeds `ExtractionMerger._compare_text`: similarity strictly above 0.85
keeps the Google value with no mismatch; otherwise the Google value is still
selected but the mismatch flag and review recommendation are set. -/
def compare_text (field : String) (pdf_value google_value : String) : FieldComparison :=
  let sim := calculate_similarity pdf_value google_value
  if sim > 85/100 then
    { field_name := field
      pdf_value := .str pdf_value
      google_value := .str google_value
      selected_value := .str google_value
      selection_reason := .similarValues sim
      confidence_score := weightGoogle field (9/10) * 100
      is_mismatch := false
      recommendation := none }
  else
    { field_name := field
      pdf_value := .str pdf_value
      google_value := .str google_value
      selected_value := .str google_value
      selection_reason := .differentValues sim
      confidence_score := weightGoogle field (9/10) * 100
      is_mismatch := true
      recommendation := some .valuesDiffer }

/-- Embeds `ExtractionMerger._compare_line_items`: the Google list is
selected in every branch; only the PDF-has-more branch flags a mismatch. -/
def compare_line_items (field : String) (pdf_value google_value : PyVal) : FieldComparison :=
  let lp := pyLen pdf_value
  let lg := pyLen google_value
  if lg > lp then
    { field_name := field, pdf_value := pdf_value, google_value := google_value
      selected_value := google_value
      selection_reason := .googleMoreItems lg lp
      confidence_score := 90, is_mismatch := false, recommendation := none }
  else if lg = lp then
    { field_name := field, pdf_value := pdf_value, google_value := google_value
      selected_value := google_value
      selection_reason := .sameCountPreferGoogle lg
      confidence_score := 85, is_mismatch := false, recommendation := none }
  else
    { field_name := field, pdf_value := pdf_value, google_value := google_value
      selected_value := google_value
      selection_reason := .pdfMoreItemsStillGoogle lg lp
      confidence_score := 75, is_mismatch := true
      recommendation := some .itemCountMismatch }

/-- Embeds `ExtractionMerger._compare_both_values`: dispatch on the field
name (line items first), then on the runtime types, with the mixed-type
fallback preferring Google. -/
def compare_both_values (field : String) (pdf_value google_value : PyVal) : FieldComparison :=
  if field = "line_items" then compare_line_items field pdf_value google_value
  else
    match pdf_value, google_value with
    | .num a, .num b => compare_numeric field a b
    | .str a, .str b => compare_text field a b
    | p, g =>
      { field_name := field, pdf_value := p, google_value := g
        selected_value := g
        selection_reason := .typeMismatchPreferGoogle
        confidence_score := weightGoogle field (8/10) * 100
        is_mismatch := false, recommendation := none }

/-- Embeds `ExtractionMerger._select_best_value`: both missing, one-sided,
or the dual-value comparison. -/
def select_best_value (field : String) (pdf_value google_value : PyVal) : FieldComparison :=
  if !(has_value pdf_value) && !(has_value google_value) then
    { field_name := field, pdf_value := pdf_value, google_value := google_value
      selected_value := .none, selection_reason := .bothMissing
      confidence_score := 0, is_mismatch := false, recommendation := none }
  else if has_value pdf_value && !(has_value google_value) then
    { field_name := field, pdf_value := pdf_value, google_value := google_value
      selected_value := pdf_value, selection_reason := .googleUnavailableUsingPdf
      confidence_score := weightPdf field (7/10) * 100
      is_mismatch := false, recommendation := none }
  else if !(has_value pdf_value) && has_value google_value then
    { field_name := field, pdf_value := pdf_value, google_value := google_value
      selected_value := google_value, selection_reason := .pdfUnavailableUsingGoogle
      confidence_score := weightGoogle field (8/10) * 100
      is_mismatch := false, recommendation := none }
  else compare_both_values field pdf_value google_value

def fields_to_compare : List String :=
  ["invoice_number", "vendor_name", "vendor_address", "buyer_name",
   "buyer_address", "invoice_date", "due_date", "currency", "subtotal",
   "tax_amount", "total_amount", "payment_terms", "line_items"]

/-- `getattr(schema, field_name, None)` for the thirteen compared fields,
injected into `PyVal`. -/
def getField (inv : InvoiceSchema) (f : String) : PyVal :=
  if f = "invoice_number" then (inv.invoice_number.map .str).getD .none
  else if f = "vendor_name" then (inv.vendor_name.map .str).getD .none
  else if f = "vendor_address" then (inv.vendor_address.map .str).getD .none
  else if f = "buyer_name" then (inv.buyer_name.map .str).getD .none
  else if f = "buyer_address" then (inv.buyer_address.map .str).getD .none
  else if f = "invoice_date" then (inv.invoice_date.map .str).getD .none
  else if f = "due_date" then (inv.due_date.map .str).getD .none
  else if f = "currency" then (inv.currency.map .str).getD .none
  else if f = "subtotal" then (inv.subtotal.map .num).getD .none
  else if f = "tax_amount" then (inv.tax_amount.map .num).getD .none
  else if f = "total_amount" then (inv.total_amount.map .num).getD .none
  else if f = "payment_terms" then (inv.payment_terms.map .str).getD .none
  else if f = "line_items" then .items inv.line_items
  else .none

/-- The parts of `ExtractionMergeResult` that `_compare_and_merge` and
`_calculate_quality_metrics` read and write.  The source's `mismatches`
entries are formatted strings; only the field name is retained here (their
count is all that is consumed downstream). -/
structure MergeData where
  field_comparisons : List FieldComparison
  final_output : List (String × PyVal)
  mismatches : List String

/-- Embeds `ExtractionMerger._compare_and_merge`: one comparison per field
in order, the selected values collected into the final record, and one
mismatch entry per flagged comparison. -/
def compare_and_merge (pdf google : InvoiceSchema) : MergeData :=
  let comps := fields_to_compare.map
    (fun f => select_best_value f (getField pdf f) (getField google f))
  { field_comparisons := comps
    final_output := comps.map (fun c => (c.field_name, c.selected_value))
    mismatches := (comps.filter (fun c => c.is_mismatch)).map (fun c => c.field_name) }

def required_fields : List String :=
  ["invoice_number", "vendor_name", "total_amount", "invoice_date"]

/-- Python `final_output.get(field)` over the merged record. -/
def dictGet (out : List (String × PyVal)) (f : String) : PyVal :=
  (out.lookup f).getD .none

/-- Embeds `ExtractionMerger._calculate_quality_metrics`: completeness over
the four required fields (`is not None`), 5 points per mismatch entry, the
floor at 0, and the 85/60 recommendation thresholds. -/
def calculate_quality_metrics (final_output : List (String × PyVal))
    (mismatches : List String) : ℚ × String :=
  let completed_required :=
    (required_fields.filter (fun f => dictGet final_output f ≠ .none)).length
  let mismatch_penalty : ℚ := (mismatches.length : ℚ) * 5
  let completeness_score : ℚ :=
    ((completed_required : ℚ) / (required_fields.length : ℚ)) * 100
  let quality_score := max 0 (completeness_score - mismatch_penalty)
  let recommendation :=
    if quality_score ≥ 85 then "approve"
    else if quality_score ≥ 60 then "review"
    else "reject"
  (quality_score, recommendation)

-- ===== Verifier status aggregation (google_verifier.py, GoogleVerifier) =====

/-- Mirrors `google_verifier.FieldCorrection`. -/
structure FieldCorrection where
  field_name : String
  original_value : PyVal
  corrected_value : PyVal
  confidence : ℚ
  source : String
  reasoning : String
  source_url : Option String := none
  requires_review : Bool := false
deriving DecidableEq

/-- `self.high_confidence_threshold = 0.85` (GoogleVerifier.__init__). -/
def high_confidence_threshold : ℚ := 85/100

/-- `self.low_confidence_threshold = 0.60` (GoogleVerifier.__init__). -/
def low_confidence_threshold : ℚ := 60/100

/-- Embeds `GoogleVerifier._determine_status`.  The correction confidences
are on the 0-100 scale (per the `FieldCorrection` docstring), while the
thresholds they are compared against are the fractional constants 0.85 and
0.60 from `__init__`. -/
def determine_status (corrections : List FieldCorrection) : String :=
  if corrections.isEmpty then "Verified"
  else
    let requires_review := (corrections.filter (fun c => c.requires_review)).length
    let high_confidence :=
      (corrections.filter (fun c => c.confidence ≥ high_confidence_threshold)).length
    let low_confidence :=
      (corrections.filter (fun c => c.confidence < low_confidence_threshold)).length
    if low_confidence > 0 then "Review Needed"
    else if requires_review > 0 then "Review Needed"
    else if high_confidence = corrections.length then "High Confidence"
    else "Verified"

/-- Embeds the overall-confidence computation of
`GoogleVerifier.verify_invoice` (lines 101-107): the mean of the correction
confidences, or the fixed 95.0 when there are none. -/
def overall_confidence (corrections : List FieldCorrection) : ℚ :=
  if !corrections.isEmpty then
    ((corrections.map (fun c => c.confidence)).sum) / (corrections.length : ℚ)
  else 95

-- ===== Amount normalization =====

/-- The currency symbols removed by `_normalize_amount`'s first
substitution, the character class of `re.sub(r'[$€₹£¥₨]*', '', s)`. -/
def isCurrencySym (c : Char) : Bool :=
  c == '$' || c == '€' || c == '₹' || c == '£' || c == '¥' || c == '₨'

/-- Characters kept by `_normalize_amount`'s final filter
`re.sub(r'[^\d.\-]', '', s)`: digits, the dot and the minus sign. -/
def isAmountChar (c : Char) : Bool := c.isDigit || c == '.' || c == '-'

/-- Python `float()` acceptance, restricted to strings over digits, `.` and
`-` (the only characters that can reach the calls modelled here): an
optional leading minus, at most one dot, at least one digit, and no further
minus sign. -/
def floatParseableChars (l : List Char) : Bool :=
  let t := match l with
    | '-' :: r => r
    | _ => l
  !t.isEmpty && t.all (fun c => c.isDigit || c == '.') &&
    t.count '.' ≤ 1 && t.any (fun c => c.isDigit)

def natOfDigits (l : List Char) : Nat := l.foldl (fun a c => a * 10 + (c.toNat - 48)) 0

/-- Numeric value of a float-parseable digits/dot/minus string. -/
def floatValChars (l : List Char) : ℚ :=
  let neg := match l with
    | '-' :: _ => true
    | _ => false
  let t := match l with
    | '-' :: r => r
    | _ => l
  let ip := t.takeWhile (fun c => !(c == '.'))
  let fp := match t.drop ip.length with
    | _ :: r => r
    | [] => []
  let v : ℚ := (natOfDigits ip : ℚ) + (natOfDigits fp : ℚ) / ((10 : ℚ) ^ fp.length)
  if neg then -v else v

/-- Python `float(s)` over the restricted alphabet, as an optional value. -/
def parseFloatQ (s : String) : Option ℚ :=
  if floatParseableChars s.data then some (floatValChars s.data) else none

/-- The cleanup chain of `GoogleDocumentAIExtractor._normalize_amount`:
strip, drop currency symbols, drop commas, keep digits/dot/minus, strip. -/
def normAmountChars (l : List Char) : List Char :=
  stripChars ((((stripChars l).filter (fun c => !(isCurrencySym c))).filter
    (fun c => !(c == ','))).filter isAmountChar)

/-- Embeds `GoogleDocumentAIExtractor._normalize_amount` on string input:
`None`/empty input gives `None`; otherwise the cleaned string is returned
when `float()` accepts it and `None` when it raises. -/
def normalize_amount (value : String) : Option String :=
  if value = "" then none
  else if floatParseableChars (normAmountChars value.data) then
    some (String.mk (normAmountChars value.data))
  else none

/-- The regex capture `([\d,]+\.?\d*)` of `PDFExtractor
._extract_total_amount`, applied at the start of the amount text: a maximal
run of digits and commas, then an optional dot followed by a maximal run of
digits. -/
def captureAmountChars (l : List Char) : List Char :=
  let d1 := l.takeWhile (fun c => c.isDigit || c == ',')
  match l.drop d1.length with
  | '.' :: rest2 => d1 ++ '.' :: rest2.takeWhile (fun c => c.isDigit)
  | _ => d1

/-- Embeds the per-match amount normalization of `PDFExtractor
._extract_total_amount` (lines 441-447): strip commas, dots and spaces; but
when the captured group contains both a comma and a dot, rebuild the string
as `parts[0]` (dots removed) + `.` + `parts[1]` from the comma-split; then
`float()` (a `ValueError` makes the source move to the next pattern). -/
def extract_amount_from_match (g : String) : Option ℚ :=
  let base := ((g.data.filter (fun c => !(c == ','))).filter
    (fun c => !(c == '.'))).filter (fun c => !(c == ' '))
  let amount_str : List Char :=
    if g.data.contains ',' && g.data.contains '.' then
      match g.data.splitOn ',' with
      | p0 :: p1 :: _ => (p0.filter (fun c => !(c == '.'))) ++ '.' :: p1
      | _ => base
    else base
  parseFloatQ (String.mk amount_str)

/-- `PDFExtractor._extract_total_amount` specialised to a text whose label
prefix has matched one pattern, leaving the amount text: the capture is
taken greedily at the amount and normalized; when `float()` raises, the
source `continue`s to the remaining patterns, none of which matches the
texts considered here, so the call returns `None` overall. -/
def pdf_total_from_amount_text (s : String) : Option ℚ :=
  let g := captureAmountChars s.data
  if g.isEmpty then none else extract_amount_from_match (String.mk g)

-- ===== Concrete records used by the evaluation theorems =====

/-- An invoice whose only populated field is a total of 20,000,000. -/
def inv20M : InvoiceSchema := { total_amount := some 20000000 }

/-- An invoice with every field unset. -/
def emptyInvoice : InvoiceSchema := {}

/-- An invoice whose invoice number is the empty string and whose total is
exactly 0 — values that are present but falsy in Python. -/
def invZeroEmpty : InvoiceSchema := { invoice_number := some "", total_amount := some 0 }

def liA : LineItem := { description := "a" }

def liB : LineItem := { description := "b" }

def liC : LineItem := { description := "c" }

/-- A vendor-name correction with confidence 70 on the 0-100 scale and no
review flag (the flag the pipeline itself would set, since
`70 < high_confidence_threshold` is false for the fractional threshold). -/
def c70 : FieldCorrection :=
  { field_name := "vendor_name", original_value := .str "Acme",
    corrected_value := .str "Acme Corp", confidence := 70,
    source := "Google Generative AI", reasoning := "name variation" }

/-- A correction with confidence 30 on the 0-100 scale. -/
def c30 : FieldCorrection :=
  { field_name := "buyer_name", original_value := .str "Contoso",
    corrected_value := .str "Contoso Ltd", confidence := 30,
    source := "Google Generative AI", reasoning := "name variation" }

/-- A merged record with all four required fields present. -/
def out4 : List (String × PyVal) :=
  [("invoice_number", .str "INV-1"), ("vendor_name", .str "Acme"),
   ("total_amount", .num 100), ("invoice_date", .str "2024-01-01")]

/-- Two strings whose `SequenceMatcher` similarity is exactly 0.85: they
share a 17-character block and nothing else, over a total length of 40. -/
def strA : String := "abcdefghijklmnopqxyz"

/-- See `strA`. -/
def strB : String := "abcdefghijklmnopquvw"

-- ===== Supporting lemmas =====

theorem dropWhile_eq_self_of_none {p : Char → Bool} :
    ∀ {m : List Char}, (∀ c ∈ m, p c = false) → m.dropWhile p = m
  | [], _ => rfl
  | a :: t, h => by
    simp [List.dropWhile_cons, h a (List.mem_cons_self a t)]

theorem stripChars_eq_self {l : List Char} (h : ∀ c ∈ l, isWs c = false) :
    stripChars l = l := by
  unfold stripChars
  rw [dropWhile_eq_self_of_none h]
  rw [dropWhile_eq_self_of_none (fun c hc => h c (List.mem_reverse.mp hc))]
  exact List.reverse_reverse l

theorem mem_stripChars {c : Char} {l : List Char} (h : c ∈ stripChars l) : c ∈ l := by
  unfold stripChars at h
  rw [List.mem_reverse] at h
  have h2 := List.Sublist.mem h (List.dropWhile_sublist isWs)
  rw [List.mem_reverse] at h2
  exact List.Sublist.mem h2 (List.dropWhile_sublist isWs)

theorem ws_not_amountChar {c : Char} (h : isWs c = true) : isAmountChar c = false := by
  simp only [isWs, Bool.or_eq_true, beq_iff_eq] at h
  rcases h with ((((h | h) | h) | h) | h) | h <;> subst h <;> decide

theorem curr_not_amountChar {c : Char} (h : isCurrencySym c = true) :
    isAmountChar c = false := by
  simp only [isCurrencySym, Bool.or_eq_true, beq_iff_eq] at h
  rcases h with ((((h | h) | h) | h) | h) | h <;> subst h <;> decide

theorem amountChar_not_ws {c : Char} (h : isAmountChar c = true) : isWs c = false := by
  cases hw : isWs c
  · rfl
  · rw [ws_not_amountChar hw] at h
    cases h

theorem amountChar_not_curr {c : Char} (h : isAmountChar c = true) :
    isCurrencySym c = false := by
  cases hw : isCurrencySym c
  · rfl
  · rw [curr_not_amountChar hw] at h
    cases h

theorem amountChar_not_comma {c : Char} (h : isAmountChar c = true) :
    (c == ',') = false := by
  cases hc : (c == ',')
  · rfl
  · have hce : c = ',' := by simpa using hc
    subst hce
    exact absurd h (by decide)

theorem floatParseableChars_ne_nil {l : List Char}
    (h : floatParseableChars l = true) : l ≠ [] := by
  intro hl
  subst hl
  simp [floatParseableChars] at h

theorem normAmountChars_of_amountChars {l : List Char}
    (hAll : ∀ c ∈ l, isAmountChar c = true) : normAmountChars l = l := by
  unfold normAmountChars
  have h1 : stripChars l = l :=
    stripChars_eq_self (fun c hc => amountChar_not_ws (hAll c hc))
  rw [h1]
  have h2 : l.filter (fun c => !(isCurrencySym c)) = l :=
    List.filter_eq_self.mpr (fun c hc => by rw [amountChar_not_curr (hAll c hc)]; rfl)
  rw [h2]
  have h3 : l.filter (fun c => !(c == ',')) = l :=
    List.filter_eq_self.mpr (fun c hc => by rw [amountChar_not_comma (hAll c hc)]; rfl)
  rw [h3]
  rw [List.filter_eq_self.mpr hAll, h1]

theorem mem_normAmountChars_isAmountChar {c : Char} {l : List Char}
    (h : c ∈ normAmountChars l) : isAmountChar c = true := by
  unfold normAmountChars at h
  exact List.of_mem_filter (mem_stripChars h)

theorem normalize_amount_fixed {l : List Char}
    (hAll : ∀ c ∈ l, isAmountChar c = true)
    (hp : floatParseableChars l = true) :
    normalize_amount (String.mk l) = some (String.mk l) := by
  have hne : l ≠ [] := floatParseableChars_ne_nil hp
  have hs : ¬(String.mk l = "") := by
    intro hcon
    exact hne (by simpa using congrArg String.data hcon)
  have hdata : (String.mk l).data = l := rfl
  unfold normalize_amount
  rw [if_neg hs, hdata, normAmountChars_of_amountChars hAll, if_pos hp]

theorem compare_numeric_spec (field : String) (p g : ℚ) :
    (compare_numeric field p g).selected_value = PyVal.num g ∧
    ((compare_numeric field p g).is_mismatch = true ↔
      (if p ≠ 0 then |g - p| / |p| * 100 > 5 else ¬(g = 0))) ∧
    (compare_numeric field p g).recommendation =
      (if (if p ≠ 0 then |g - p| / |p| * 100 > 5 else ¬(g = 0)) then
        some Reco.manualReview else none) := by
  by_cases hp : p = 0
  · by_cases hg : g = 0
    · norm_num [compare_numeric, hp, hg, decide_eq_true_eq]
    · norm_num [compare_numeric, hp, hg, decide_eq_true_eq]
  · by_cases hd : |g - p| / |p| * 100 > 5
    · norm_num [compare_numeric, hp, hd, decide_eq_true_eq]
    · norm_num [compare_numeric, hp, hd, decide_eq_true_eq]

theorem compare_text_spec (field p g : String) :
    (compare_text field p g).selected_value = PyVal.str g ∧
    ((compare_text field p g).is_mismatch = false ↔
      calculate_similarity p g > 85/100) ∧
    (compare_text field p g).recommendation =
      (if calculate_similarity p g > 85/100 then none else some Reco.valuesDiffer) := by
  simp only [compare_text]
  by_cases h : calculate_similarity p g > 85/100
  · rw [if_pos h]
    refine ⟨rfl, ?_, ?_⟩
    · simp [h]
    · rw [if_pos h]
  · rw [if_neg h]
    refine ⟨rfl, ?_, ?_⟩
    · simp [h]
    · rw [if_neg h]

set_option maxRecDepth 4000 in
theorem acme_similarity : calculate_similarity "Acme Inc" "Acme Inc." = 16/17 := by
  have hla : ("Acme Inc".data.map Char.toLower).length = 8 := rfl
  have hlb : ("Acme Inc.".data.map Char.toLower).length = 9 := rfl
  have hM : matchTotal 17 ("Acme Inc".data.map Char.toLower)
      ("Acme Inc.".data.map Char.toLower) = 8 := rfl
  unfold calculate_similarity ratioVal
  rw [hla, hlb, show (8 : Nat) + 9 = 17 from rfl, hM]
  norm_num

theorem bestMatchAux_add (a b : List Char) (m : Nat) :
    ∀ (n i : Nat) (acc : Nat × Nat × Nat),
    bestMatchAux a b i (m + n) acc =
      bestMatchAux a b (i + m) n (bestMatchAux a b i m acc) := by
  induction m with
  | zero =>
    intro n i acc
    rw [Nat.zero_add, Nat.add_zero]
    rfl
  | succ m ih =>
    intro n i acc
    rw [Nat.succ_add]
    show bestMatchAux a b (i + 1) (m + n) (bestRowAux a b i 0 b.length acc) = _
    rw [ih]
    rw [show i + 1 + m = i + (m + 1) from by omega]
    rfl

set_option maxRecDepth 4000 in
theorem boundary_bestMatch :
    bestMatch (strA.data.map Char.toLower) (strB.data.map Char.toLower) = (0, 0, 17) := by
  show bestMatchAux (strA.data.map Char.toLower) (strB.data.map Char.toLower) 0
    (strA.data.map Char.toLower).length (0, 0, 0) = (0, 0, 17)
  rw [show (strA.data.map Char.toLower).length = 20 from rfl]
  have h1 : bestMatchAux (strA.data.map Char.toLower) (strB.data.map Char.toLower)
      0 20 (0, 0, 0) =
    bestMatchAux (strA.data.map Char.toLower) (strB.data.map Char.toLower) 5 15
      (bestMatchAux (strA.data.map Char.toLower) (strB.data.map Char.toLower)
        0 5 (0, 0, 0)) :=
    bestMatchAux_add (strA.data.map Char.toLower) (strB.data.map Char.toLower) 5 15 0 (0, 0, 0)
  rw [h1]
  rw [show bestMatchAux (strA.data.map Char.toLower) (strB.data.map Char.toLower)
    0 5 (0, 0, 0) = (0, 0, 17) from rfl]
  have h2 : bestMatchAux (strA.data.map Char.toLower) (strB.data.map Char.toLower)
      5 15 (0, 0, 17) =
    bestMatchAux (strA.data.map Char.toLower) (strB.data.map Char.toLower) 10 10
      (bestMatchAux (strA.data.map Char.toLower) (strB.data.map Char.toLower)
        5 5 (0, 0, 17)) :=
    bestMatchAux_add (strA.data.map Char.toLower) (strB.data.map Char.toLower) 5 10 5 (0, 0, 17)
  rw [h2]
  rw [show bestMatchAux (strA.data.map Char.toLower) (strB.data.map Char.toLower)
    5 5 (0, 0, 17) = (0, 0, 17) from rfl]
  have h3 : bestMatchAux (strA.data.map Char.toLower) (strB.data.map Char.toLower)
      10 10 (0, 0, 17) =
    bestMatchAux (strA.data.map Char.toLower) (strB.data.map Char.toLower) 15 5
      (bestMatchAux (strA.data.map Char.toLower) (strB.data.map Char.toLower)
        10 5 (0, 0, 17)) :=
    bestMatchAux_add (strA.data.map Char.toLower) (strB.data.map Char.toLower) 5 5 10 (0, 0, 17)
  rw [h3]
  rw [show bestMatchAux (strA.data.map Char.toLower) (strB.data.map Char.toLower)
    10 5 (0, 0, 17) = (0, 0, 17) from rfl]
  exact (show bestMatchAux (strA.data.map Char.toLower) (strB.data.map Char.toLower)
    15 5 (0, 0, 17) = (0, 0, 17) from rfl)

set_option maxRecDepth 4000 in
theorem boundary_matchTotal :
    matchTotal 40 (strA.data.map Char.toLower) (strB.data.map Char.toLower) = 17 := by
  show matchTotal (Nat.succ 39) (strA.data.map Char.toLower) (strB.data.map Char.toLower) = 17
  rw [matchTotal.eq_2, boundary_bestMatch]
  rfl

set_option maxRecDepth 4000 in
theorem boundary_similarity : calculate_similarity strA strB = 17/20 := by
  have hla : (strA.data.map Char.toLower).length = 20 := rfl
  have hlb : (strB.data.map Char.toLower).length = 20 := rfl
  unfold calculate_similarity ratioVal
  rw [hla, hlb]
  norm_num [boundary_matchTotal]

theorem reco_spec (q : ℚ) :
    ((if q ≥ 85 then "approve" else if q ≥ 60 then "review" else "reject") = "approve" ↔
      85 ≤ q) ∧
    ((if q ≥ 85 then "approve" else if q ≥ 60 then "review" else "reject") = "review" ↔
      (60 ≤ q ∧ q < 85)) ∧
    ((if q ≥ 85 then "approve" else if q ≥ 60 then "review" else "reject") = "reject" ↔
      q < 60) := by
  by_cases h1 : q ≥ 85
  · rw [if_pos h1]
    refine ⟨by simp [h1], ?_, ?_⟩
    · constructor
      · intro h
        exact absurd h (by decide)
      · rintro ⟨-, h⟩
        linarith
    · constructor
      · intro h
        exact absurd h (by decide)
      · intro h
        linarith
  · rw [if_neg h1]
    by_cases h2 : q ≥ 60
    · rw [if_pos h2]
      refine ⟨?_, ?_, ?_⟩
      · constructor
        · intro h
          exact absurd h (by decide)
        · intro h
          exact absurd h h1
      · simp [h2, not_le.mp h1]
      · constructor
        · intro h
          exact absurd h (by decide)
        · intro h
          linarith
    · rw [if_neg h2]
      refine ⟨?_, ?_, ?_⟩
      · constructor
        · intro h
          exact absurd h (by decide)
        · intro h
          exact absurd h h1
      · constructor
        · intro h
          exact absurd h (by decide)
        · rintro ⟨h, -⟩
          exact absurd h h2
      · simp [not_le.mp h2]

-- ===== Claim theorems =====

/-- Claim C9: `normalize_amount` is idempotent — composing the normalizer
with itself (through its optional result) gives the same result as a single
application, for every input string. -/
theorem normalize_amount_idempotent (x : String) :
    (normalize_amount x).bind normalize_amount = normalize_amount x := by
  by_cases hx : x = ""
  · simp [normalize_amount, hx]
  · by_cases hp : floatParseableChars (normAmountChars x.data) = true
    · have hres : normalize_amount x = some (String.mk (normAmountChars x.data)) := by
        simp [normalize_amount, hx, hp]
      rw [hres]
      show normalize_amount (String.mk (normAmountChars x.data)) =
        some (String.mk (normAmountChars x.data))
      exact normalize_amount_fixed
        (fun c hc => mem_normAmountChars_isAmountChar hc) hp
    · have hres : normalize_amount x = none := by
        simp [normalize_amount, hx, hp]
      rw [hres]
      rfl

/-- Claim C1: evaluation of the validator at a total of 20,000,000.  The
source's `elif` makes the two anomaly checks mutually exclusive and orders
the narrower test second, so only the unusually-high warning (−3) fires;
the suspiciously-high error is absent from the result and the score is
37 = 100 − 3·15 − 3·5 − 3, not the 27 that a −10 error deduction would
give. -/
theorem anomaly_pass_on_large_total :
    (validate noDateEnv inv20M).warnings =
      [VMsg.missingImportant "Buyer Name", VMsg.missingImportant "Currency",
       VMsg.missingImportant "Due Date", VMsg.unusuallyHighAmount 20000000] ∧
    (validate noDateEnv inv20M).errors =
      [VMsg.missingRequired "Invoice Number", VMsg.missingRequired "Vendor Name",
       VMsg.missingRequired "Invoice Date"] ∧
    VMsg.suspiciouslyHighAmount 20000000 ∉ (validate noDateEnv inv20M).errors ∧
    VMsg.suspiciouslyHighAmount 20000000 ∉ (validate noDateEnv inv20M).warnings ∧
    (validate noDateEnv inv20M).score = 37 := by
  have he : (validate noDateEnv inv20M).errors =
      [VMsg.missingRequired "Invoice Number", VMsg.missingRequired "Vendor Name",
       VMsg.missingRequired "Invoice Date"] := rfl
  have hw : (validate noDateEnv inv20M).warnings =
      [VMsg.missingImportant "Buyer Name", VMsg.missingImportant "Currency",
       VMsg.missingImportant "Due Date", VMsg.unusuallyHighAmount 20000000] := rfl
  refine ⟨hw, he, ?_, ?_, rfl⟩
  · rw [he]
    simp
  · rw [hw]
    simp

/-- Claim C5 (counterexample): the record missing all four required and all
three important fields reports score 25 = 100 − 4·15 − 3·5, not 0. -/
theorem empty_invoice_score_not_zero :
    (validate noDateEnv emptyInvoice).score = 25 ∧
    ¬((validate noDateEnv emptyInvoice).score = 0) := by
  have h25 : (validate noDateEnv emptyInvoice).score = 25 := rfl
  refine ⟨h25, ?_⟩
  intro h
  rw [h25] at h
  exact absurd h (by decide)

/-- Claim C5 (amended): `validate` returns `is_valid` true exactly when the
errors list is empty, never reports a negative score, applies the floor
`max 0` once at output time to the accumulated raw score, and reports score
25 for a record missing all four required and all three important fields. -/
theorem validate_validity_and_score_floor :
    (∀ (env : DateEnv) (inv : InvoiceSchema),
      ((validate env inv).is_valid = true ↔ (validate env inv).errors = []) ∧
      0 ≤ (validate env inv).score ∧
      (validate env inv).score = max 0 (validateRun env inv).score) ∧
    (validate noDateEnv emptyInvoice).score = 25 := by
  constructor
  · intro env inv
    refine ⟨?_, ?_, rfl⟩
    · show (validateRun env inv).errors.isEmpty = true ↔
        (validateRun env inv).errors = []
      exact List.isEmpty_iff
    · exact le_max_left 0 (validateRun env inv).score
  · rfl

/-- Claim C10: a record with `total_amount = 0.0` and `invoice_number = ""`
is treated as missing those required fields by the truthiness-based
completeness pass (−15 each), while the `is not None` format pass still
sees the zero total and adds the zero-amount warning (−5); the score is
20 = 100 − 4·15 − 3·5 − 5 and the empty invoice number is not additionally
flagged as too short (the format pass skips falsy strings). -/
theorem completeness_truthiness_zero_total :
    (validate noDateEnv invZeroEmpty).errors =
      [VMsg.missingRequired "Invoice Number", VMsg.missingRequired "Vendor Name",
       VMsg.missingRequired "Total Amount", VMsg.missingRequired "Invoice Date"] ∧
    VMsg.zeroTotal ∈ (validate noDateEnv invZeroEmpty).warnings ∧
    VMsg.invoiceNumberTooShort ∉ (validate noDateEnv invZeroEmpty).errors ∧
    (validate noDateEnv invZeroEmpty).score = 20 ∧
    (validate noDateEnv invZeroEmpty).is_valid = false := by
  have he : (validate noDateEnv invZeroEmpty).errors =
      [VMsg.missingRequired "Invoice Number", VMsg.missingRequired "Vendor Name",
       VMsg.missingRequired "Total Amount", VMsg.missingRequired "Invoice Date"] := rfl
  have hw : (validate noDateEnv invZeroEmpty).warnings =
      [VMsg.missingImportant "Buyer Name", VMsg.missingImportant "Currency",
       VMsg.missingImportant "Due Date", VMsg.zeroTotal] := rfl
  refine ⟨he, ?_, ?_, rfl, rfl⟩
  · rw [hw]
    simp
  · rw [he]
    simp

/-- Claim C2 (counterexample): with a two-item PDF list against a one-item
Google list, the merger selects the Google list — not the list from the
source with the greater item count — and with a one-item PDF list against a
two-item Google list the counts differ yet no mismatch is flagged. -/
theorem line_items_greater_count_not_preferred :
    (select_best_value "line_items" (.items [liA, liB]) (.items [liC])).selected_value
      = PyVal.items [liC] ∧
    ¬(PyVal.items [liC] = PyVal.items [liA, liB]) ∧
    (select_best_value "line_items" (.items [liA, liB]) (.items [liC])).is_mismatch = true ∧
    (select_best_value "line_items" (.items [liA]) (.items [liB, liC])).is_mismatch = false := by
  refine ⟨rfl, ?_, rfl, rfl⟩
  intro h
  simp only [PyVal.items.injEq] at h
  exact absurd (congrArg List.length h) (by simp)

/-- Claim C2 (amended): when both sources supply non-empty line-item lists
the Google list is always the selected value regardless of the counts; the
mismatch flag is set exactly when the PDF list has strictly more items, and
the item-count review note is attached exactly in that case. -/
theorem line_items_merge_google_always_selected (pdfL gL : List LineItem)
    (hp : pdfL ≠ []) (hg : gL ≠ []) :
    (select_best_value "line_items" (.items pdfL) (.items gL)).selected_value
      = PyVal.items gL ∧
    ((select_best_value "line_items" (.items pdfL) (.items gL)).is_mismatch = true ↔
      gL.length < pdfL.length) ∧
    (select_best_value "line_items" (.items pdfL) (.items gL)).recommendation =
      (if gL.length < pdfL.length then some Reco.itemCountMismatch else none) := by
  have hhp : has_value (PyVal.items pdfL) = true := by
    simp [has_value, hp]
  have hhg : has_value (PyVal.items gL) = true := by
    simp [has_value, hg]
  have hsel : select_best_value "line_items" (.items pdfL) (.items gL) =
      compare_line_items "line_items" (.items pdfL) (.items gL) := by
    unfold select_best_value
    rw [hhp, hhg]
    simp [compare_both_values]
  rw [hsel]
  simp only [compare_line_items, pyLen]
  rcases Nat.lt_trichotomy pdfL.length gL.length with h | h | h
  · rw [if_pos h]
    refine ⟨rfl, ?_, ?_⟩
    · simp only [show ¬(gL.length < pdfL.length) from by omega, iff_false]
      simp
    · rw [if_neg (by omega)]
  · rw [if_neg (by omega), if_pos (by omega)]
    refine ⟨rfl, ?_, ?_⟩
    · simp only [show ¬(gL.length < pdfL.length) from by omega, iff_false]
      simp
    · rw [if_neg (by omega)]
  · rw [if_neg (by omega), if_neg (by omega)]
    refine ⟨rfl, by simpa using h, ?_⟩
    rw [if_pos h]

/-- Witness for `line_items_merge_google_always_selected` at a one-item PDF
list and a two-item Google list. -/
theorem line_items_merge_google_always_selected_witness :
    ([liA] : List LineItem) ≠ [] ∧ ([liB, liC] : List LineItem) ≠ [] ∧
    ((select_best_value "line_items" (.items [liA]) (.items [liB, liC])).selected_value
        = PyVal.items [liB, liC] ∧
      ((select_best_value "line_items" (.items [liA]) (.items [liB, liC])).is_mismatch = true ↔
        ([liB, liC] : List LineItem).length < ([liA] : List LineItem).length) ∧
      (select_best_value "line_items" (.items [liA]) (.items [liB, liC])).recommendation =
        (if ([liB, liC] : List LineItem).length < ([liA] : List LineItem).length then
          some Reco.itemCountMismatch else none)) :=
  ⟨by simp, by simp,
    line_items_merge_google_always_selected [liA] [liB, liC] (by simp) (by simp)⟩

/-- Claim C7: in the numeric-field comparison the mismatch flag (with its
review recommendation) is set exactly when the percentage difference
relative to the PDF value exceeds 5% (with the zero-PDF branch treating any
nonzero Google value as a 100% difference), and the Google value is always
the selected value — in particular PDF 100.00 vs Google 150.00 flags a
mismatch and selects 150.00. -/
theorem compare_numeric_mismatch_and_selection :
    (∀ (field : String) (p g : ℚ),
      (compare_numeric field p g).selected_value = PyVal.num g ∧
      ((compare_numeric field p g).is_mismatch = true ↔
        (if p ≠ 0 then |g - p| / |p| * 100 > 5 else ¬(g = 0))) ∧
      (compare_numeric field p g).recommendation =
        (if (if p ≠ 0 then |g - p| / |p| * 100 > 5 else ¬(g = 0)) then
          some Reco.manualReview else none)) ∧
    (select_best_value "total_amount" (.num 100) (.num 150)).is_mismatch = true ∧
    (select_best_value "total_amount" (.num 100) (.num 150)).selected_value
      = PyVal.num 150 := by
  refine ⟨compare_numeric_spec, ?_, rfl⟩
  have hsel : select_best_value "total_amount" (.num 100) (.num 150) =
      compare_numeric "total_amount" 100 150 := rfl
  rw [hsel]
  refine (compare_numeric_spec "total_amount" 100 150).2.1.mpr ?_
  rw [if_pos (by norm_num : (100 : ℚ) ≠ 0)]
  norm_num

/-- Claim C6 (counterexample): two strings whose case-insensitive
`SequenceMatcher` similarity is exactly 0.85 — at least 0.85, so the claim
says they are treated as equivalent — are nevertheless flagged as a
mismatch, because the source tests `similarity > 0.85` strictly. -/
theorem text_similarity_boundary_mismatch :
    calculate_similarity strA strB = 17/20 ∧
    (compare_text "vendor_name" strA strB).is_mismatch = true ∧
    (compare_text "vendor_name" strA strB).selected_value = PyVal.str strB := by
  have hb := boundary_similarity
  have hng : ¬(calculate_similarity strA strB > 85/100) := by
    rw [hb]
    norm_num
  refine ⟨hb, ?_, (compare_text_spec "vendor_name" strA strB).1⟩
  cases hmm : (compare_text "vendor_name" strA strB).is_mismatch
  · exact absurd ((compare_text_spec "vendor_name" strA strB).2.1.mp hmm) hng
  · rfl

/-- Claim C6 (amended): in the text-field comparison the two values are
treated as equivalent — Google's value selected, no mismatch — exactly when
the case-insensitive similarity is strictly greater than 0.85; at or below
0.85 the Google value is still selected but the mismatch flag and the
values-differ recommendation are set.  For PDF "Acme Inc" vs Google
"Acme Inc." the similarity is 16/17 > 0.85, so no mismatch is flagged and
the Google (AI) value is selected. -/
theorem compare_text_strict_threshold :
    (∀ (field p g : String),
      (compare_text field p g).selected_value = PyVal.str g ∧
      ((compare_text field p g).is_mismatch = false ↔
        calculate_similarity p g > 85/100) ∧
      (compare_text field p g).recommendation =
        (if calculate_similarity p g > 85/100 then none else some Reco.valuesDiffer)) ∧
    (compare_text "vendor_name" "Acme Inc" "Acme Inc.").is_mismatch = false ∧
    (compare_text "vendor_name" "Acme Inc" "Acme Inc.").selected_value
      = PyVal.str "Acme Inc." ∧
    calculate_similarity "Acme Inc" "Acme Inc." = 16/17 := by
  have hac := acme_similarity
  have hgt : calculate_similarity "Acme Inc" "Acme Inc." > 85/100 := by
    rw [hac]
    norm_num
  exact ⟨compare_text_spec,
    (compare_text_spec "vendor_name" "Acme Inc" "Acme Inc.").2.1.mpr hgt,
    (compare_text_spec "vendor_name" "Acme Inc" "Acme Inc.").1, hac⟩

/-- Claim C4: the merge quality score is `max(0, completeness − 5 ×
mismatch count)` with completeness the fraction of the four required fields
present in the final record times 100; "approve" exactly at score ≥ 85,
"review" exactly at 60 ≤ score < 85, "reject" exactly below 60; the
mismatch count equals the number of flagged field comparisons; and a full
record with one mismatch scores 95 with recommendation "approve". -/
theorem quality_score_formula_and_thresholds :
    (∀ (out : List (String × PyVal)) (mm : List String),
      (calculate_quality_metrics out mm).1 =
        max 0 (((required_fields.filter (fun f => dictGet out f ≠ PyVal.none)).length : ℚ)
          / 4 * 100 - 5 * (mm.length : ℚ)) ∧
      ((calculate_quality_metrics out mm).2 = "approve" ↔
        85 ≤ (calculate_quality_metrics out mm).1) ∧
      ((calculate_quality_metrics out mm).2 = "review" ↔
        (60 ≤ (calculate_quality_metrics out mm).1 ∧
          (calculate_quality_metrics out mm).1 < 85)) ∧
      ((calculate_quality_metrics out mm).2 = "reject" ↔
        (calculate_quality_metrics out mm).1 < 60)) ∧
    (∀ pdf google : InvoiceSchema,
      (compare_and_merge pdf google).mismatches.length =
        ((compare_and_merge pdf google).field_comparisons.filter
          (fun c => c.is_mismatch)).length) ∧
    calculate_quality_metrics out4 ["total_amount"] = (95, "approve") := by
  refine ⟨?_, ?_, ?_⟩
  · intro out mm
    have hlen : ((required_fields.length : Nat) : ℚ) = 4 := by
      norm_num [required_fields]
    simp only [calculate_quality_metrics, hlen]
    refine ⟨?_, (reco_spec _).1, (reco_spec _).2.1, (reco_spec _).2.2⟩
    congr 1
    ring
  · intro pdf google
    simp [compare_and_merge]
  · have hc : (required_fields.filter (fun f => dictGet out4 f ≠ PyVal.none)).length = 4 := rfl
    simp only [calculate_quality_metrics, hc]
    norm_num [required_fields, max_def]

/-- Claim C3: the verifier's status derivation compares the 0-100 scale
correction confidences against the fractional thresholds 0.85 and 0.60, so
a lone correction with confidence 70 — which, per the claim, should yield
"Verified" — and even one with confidence 30 — which should yield "Review
Needed" — both count as high confidence and produce "High Confidence"; the
no-corrections case ("Verified", confidence 95) and the mean-confidence
aggregation behave as claimed. -/
theorem verifier_status_on_midrange_confidence :
    determine_status [c70] = "High Confidence" ∧
    determine_status [c30] = "High Confidence" ∧
    overall_confidence [c70] = 70 ∧
    overall_confidence [c70, c30] = 50 ∧
    determine_status [] = "Verified" ∧
    overall_confidence [] = 95 := by
  refine ⟨?_, ?_, ?_, ?_, rfl, rfl⟩
  · norm_num [determine_status, c70, low_confidence_threshold, high_confidence_threshold,
      List.filter_cons, decide_eq_true_eq]
  · norm_num [determine_status, c30, low_confidence_threshold, high_confidence_threshold,
      List.filter_cons, decide_eq_true_eq]
  · norm_num [overall_confidence, c70]
  · norm_num [overall_confidence, c70, c30]

/-- Claim C8: neither amount path implements last-separator detection.  In
the PDF extractor the captured group "1,234.56" is rebuilt as the
unparseable "1.234.56", so the English convention yields no amount at all,
while "1.234,56" is truncated by the capture to "1.234" and parsed as 1234,
not 1234.56.  In the Document AI normalizer "1,234.56" is handled, but
"1.234,56" has its comma stripped as a thousands separator, producing
"1.23456" — numerically 1.23456, not 1234.56. -/
theorem amount_grouping_convention_results :
    pdf_total_from_amount_text "1,234.56" = none ∧
    pdf_total_from_amount_text "1.234,56" = some 1234 ∧
    ¬((1234 : ℚ) = 123456/100) ∧
    normalize_amount "1,234.56" = some "1234.56" ∧
    normalize_amount "1.234,56" = some "1.23456" ∧
    parseFloatQ "1.23456" = some (123456/100000) ∧
    ¬((123456/100000 : ℚ) = 123456/100) := by
  refine ⟨rfl, ?_, by norm_num, rfl, rfl, ?_, by norm_num⟩
  · have h : pdf_total_from_amount_text "1.234,56" =
        some ((1234 : ℚ) + 0 / 10 ^ (0 : Nat)) := rfl
    rw [h]
    norm_num
  · have h : parseFloatQ "1.23456" = some ((1 : ℚ) + 23456 / 10 ^ (5 : Nat)) := rfl
    rw [h]
    norm_num

end InvoiceQC
